import Mathlib

namespace Collector

/-!
Verification of the security-analytics collector
(`src/analytics/collector.py` of lucchesi-sec/linux-server-hardening).

This file gives a shallow embedding of the collector's core logic —
rotation-aware log tailing, log-line classification, bounded FIFO
buffering, baseline statistics, z-score anomaly classification,
threat-indicator correlation and alert-id generation — and proves the
specification's claims about it.

Modelling conventions:
* Python floats are modelled as rationals (`ℚ`); the statted inode and
  byte offsets as `Nat`; file contents as `List Nat` (a byte string).
* Python dictionaries keyed by strings are modelled as association
  lists; lookup finds the first binding, matching dict semantics since
  the code never creates duplicate keys.
* Fallible operations (`os.stat`, `open`/`read`, Python's raising
  division) are modelled with `Option`/`Except`.
* `hashlib.md5(data).hexdigest()[:16]` is a deterministic function of
  its input string; alerts here carry the pre-hash input string in the
  field `alert_id_data`.  Equality of `alert_id_data` transfers to
  equality of the real 16-hex-digit ids; inequality transfers barring
  an MD5 collision, exactly the caveat the specification itself makes.
-/

/-! ### Log tailing (`BaseLogParser.parse_new_events`)

Python source (collector.py, lines 488-514):

```
def __init__(self):
    self.last_position = 0
    self.last_inode = None

async def parse_new_events(self, log_path):
    try:
        stat = os.stat(log_path)
        if self.last_inode and stat.st_ino != self.last_inode:
            self.last_position = 0
        self.last_inode = stat.st_ino
        with open(log_path, 'r') as f:
            f.seek(self.last_position)
            new_content = f.read()
            self.last_position = f.tell()
        return await self._parse_content(new_content)
    except Exception as e:
        logger.error(...)
        return []
```

The cursor state is `last_position` and `last_inode` (`None` before the
first successful stat).  The rotation test uses Python truthiness:
`self.last_inode and ...` is false when `last_inode` is `None` or `0`.
The two fallible effects (the stat and the open/read) are passed in as
`Option` arguments: `none` models the corresponding call raising.
`f.seek(p); f.read(); f.tell()` on a file of `n` bytes returns the
bytes from `p` to the end (empty when `p ≥ n`) and leaves the position
at `max p n`. -/

structure TailState where
  last_position : Nat
  last_inode : Option Nat
deriving DecidableEq

/-- The rotation test `self.last_inode and stat.st_ino != self.last_inode`:
true only when a truthy (nonzero) inode is stored and the statted inode
differs from it. -/
def rotated (st : TailState) (ino : Nat) : Bool :=
  match st.last_inode with
  | none => false
  | some i => i != 0 && ino != i

/-- One call of `parse_new_events`, reduced to the cursor transition and
the raw bytes handed to `_parse_content`.  `stat_result` is the statted
inode (`none` = `os.stat` raised, e.g. the path does not exist);
`read_result` is the full current file content (`none` = the
`open`/`read` raised).  Returns the newly delivered bytes and the
updated cursor. -/
def parse_new_events (st : TailState) (stat_result : Option Nat)
    (read_result : Option (List Nat)) : List Nat × TailState :=
  match stat_result with
  | none => ([], st)
  | some ino =>
    let pos := if rotated st ino then 0 else st.last_position
    match read_result with
    | none => ([], ⟨pos, some ino⟩)
    | some content => (content.drop pos, ⟨max pos content.length, some ino⟩)

/-- A fully successful tailer call (stat and read both succeed). -/
def tail_success (st : TailState) (ino : Nat) (content : List Nat) :
    List Nat × TailState :=
  parse_new_events st (some ino) (some content)

/-- A sequence of successful tailer calls against one file identity,
observing the file contents `cs` in order; returns the concatenation of
all delivered chunks and the final cursor. -/
def tail_run (st : TailState) (ino : Nat) : List (List Nat) → List Nat × TailState
  | [] => ([], st)
  | c :: cs =>
    let r := tail_success st ino c
    let rest := tail_run r.2 ino cs
    (r.1 ++ rest.1, rest.2)

/-- `grows_from c cs`: each successive observed content extends the
previous one by appended bytes only (the log is append-only while its
identity is unchanged). -/
def grows_from (c : List Nat) : List (List Nat) → Prop
  | [] => True
  | c' :: cs => (∃ d, c' = c ++ d) ∧ grows_from c' cs

/-- The last observed content of the run `c :: cs`. -/
def last_snap (c : List Nat) (cs : List (List Nat)) : List Nat :=
  cs.foldl (fun _ x => x) c

/-! ### Anomaly detection (`_detect_anomalies`, `_check_metric_anomaly`)

Python source (collector.py, lines 295-328):

```
async def _detect_anomalies(self):
    recent_metrics = list(self.metrics_buffer)[-10:]
    if not self.baseline_metrics:
        await self._establish_baseline()
    cpu_values = [m.cpu_usage for m in recent_metrics]
    await self._check_metric_anomaly('cpu_usage', cpu_values)
    memory_values = [m.memory_usage for m in recent_metrics]
    await self._check_metric_anomaly('memory_usage', memory_values)
    network_values = [m.network_connections for m in recent_metrics]
    await self._check_metric_anomaly('network_connections', network_values)

async def _check_metric_anomaly(self, metric_name, values):
    if metric_name not in self.baseline_metrics:
        return
    baseline = self.baseline_metrics[metric_name]
    current_avg = sum(values) / len(values)
    z_score = abs(current_avg - baseline['mean']) / baseline['std']
    if z_score > 2.0:
        severity = 'high' if z_score > 3.0 else 'medium'
        await self._generate_anomaly_alert(metric_name, current_avg,
                                           baseline, severity)
```

Floats are modelled as `ℚ`.  Python's `/` raises `ZeroDivisionError`
when the divisor is zero — `sum(values)/len(values)` on an empty list,
and the z-score division when `baseline['std'] == 0`; both raising
branches are modelled as `Except.error ()`.  The result `ok none` means
no alert; `ok (some sev)` means one anomaly alert of severity `sev` was
generated. -/

/-- A stored baseline dict entry as read by `_check_metric_anomaly`
(the `'mean'`/`'std'`/`'min'`/`'max'` keys written by
`_establish_baseline`; `std` holds whatever number was stored). -/
structure Baseline where
  mean : ℚ
  std : ℚ
  bl_min : ℚ
  bl_max : ℚ
deriving DecidableEq

instance exceptDecEq {ε α : Type} [DecidableEq ε] [DecidableEq α] :
    DecidableEq (Except ε α) := fun x y =>
  match x, y with
  | .ok a, .ok b =>
    if h : a = b then .isTrue (by rw [h])
    else .isFalse (fun hc => h (Except.ok.inj hc))
  | .error a, .error b =>
    if h : a = b then .isTrue (by rw [h])
    else .isFalse (fun hc => h (Except.error.inj hc))
  | .ok _, .error _ => .isFalse (fun hc => Except.noConfusion hc)
  | .error _, .ok _ => .isFalse (fun hc => Except.noConfusion hc)

/-- First-binding association-list lookup (Python dict access). -/
def dict_get {α : Type} : List (String × α) → String → Option α
  | [], _ => none
  | p :: t, k => if p.1 = k then some p.2 else dict_get t k

/-- `_check_metric_anomaly`, as a function of the baseline table, the
metric name and the sampled values. -/
def check_metric_anomaly (bm : List (String × Baseline)) (metric_name : String)
    (values : List ℚ) : Except Unit (Option String) :=
  match dict_get bm metric_name with
  | none => .ok none
  | some baseline =>
    if values.length = 0 then .error ()
    else
      let current_avg := values.sum / (values.length : ℚ)
      if baseline.std = 0 then .error ()
      else
        let z_score := |current_avg - baseline.mean| / baseline.std
        .ok (if z_score > 2 then some (if z_score > 3 then "high" else "medium")
             else none)

/-- The `[-10:]` slice: the (up to) 10 most recent buffered samples. -/
def recent_ten {α : Type} (buffer : List α) : List α :=
  buffer.drop (buffer.length - 10)

/-- A buffered `SystemMetrics` snapshot (collector.py, lines 45-56).
`network_connections` is an `int` in the source; it is averaged and
compared against rational thresholds, so it is modelled in `ℚ` too. -/
structure SystemMetrics where
  timestamp : String
  cpu_usage : ℚ
  memory_usage : ℚ
  disk_usage : List (String × ℚ)
  network_connections : ℚ
  active_processes : Nat
  failed_logins : Nat
  security_alerts : Nat
  compliance_score : ℚ
deriving DecidableEq

/-- `_detect_anomalies` given an already-established baseline table: one
check per monitored metric over the 10 most recent samples.  (In the
source, when the table is still empty the call first runs
`_establish_baseline`, modelled separately below; with an empty table
every check returns `ok none`.) -/
def detect_anomalies (bm : List (String × Baseline))
    (buffer : List SystemMetrics) : List (Except Unit (Option String)) :=
  let recent_metrics := recent_ten buffer
  [check_metric_anomaly bm "cpu_usage" (recent_metrics.map (·.cpu_usage)),
   check_metric_anomaly bm "memory_usage" (recent_metrics.map (·.memory_usage)),
   check_metric_anomaly bm "network_connections"
     (recent_metrics.map (·.network_connections))]

/-! ### Baseline establishment (`_establish_baseline`)

Python source (collector.py, lines 330-356):

```
async def _establish_baseline(self):
    if len(self.metrics_buffer) < 50:
        return
    recent_metrics = list(self.metrics_buffer)[-50:]
    metrics_data = {
        'cpu_usage': [m.cpu_usage for m in recent_metrics],
        'memory_usage': [m.memory_usage for m in recent_metrics],
        'network_connections': [m.network_connections for m in recent_metrics]
    }
    for metric_name, values in metrics_data.items():
        mean = sum(values) / len(values)
        variance = sum((x - mean) ** 2 for x in values) / len(values)
        std = variance ** 0.5
        self.baseline_metrics[metric_name] = {
            'mean': mean, 'std': std, 'min': min(values), 'max': max(values)
        }
```

The stored `std` is `variance ** 0.5`, which is irrational for general
rational inputs, so the embedding records the `variance` itself (the
square of the stored std); "std is the population standard deviation
(divisor n)" is exactly "variance is the population variance". -/

/-- Python's `min(values)` (`none` models the `ValueError` on an empty
list, unreachable under the 50-sample gate). -/
def py_min : List ℚ → Option ℚ
  | [] => none
  | x :: xs => some (xs.foldl min x)

/-- Python's `max(values)`. -/
def py_max : List ℚ → Option ℚ
  | [] => none
  | x :: xs => some (xs.foldl max x)

/-- The per-metric baseline statistics computed by
`_establish_baseline`; `variance` is the square of the stored std. -/
structure BaselineStats where
  mean : ℚ
  variance : ℚ
  stat_min : ℚ
  stat_max : ℚ
deriving DecidableEq

/-- The per-metric body of the `for metric_name, values in ...` loop. -/
def compute_baseline (values : List ℚ) : BaselineStats :=
  let mean := values.sum / (values.length : ℚ)
  let variance := (values.map (fun x => (x - mean) ^ 2)).sum / (values.length : ℚ)
  { mean := mean, variance := variance,
    stat_min := (py_min values).getD 0,
    stat_max := (py_max values).getD 0 }

/-- `_establish_baseline` as a function of the metrics buffer: `[]`
models "returns without establishing anything" (the table is left
empty) when fewer than 50 samples are buffered. -/
def establish_baseline (buffer : List SystemMetrics) :
    List (String × BaselineStats) :=
  if buffer.length < 50 then []
  else
    let recent_metrics := buffer.drop (buffer.length - 50)
    [("cpu_usage", compute_baseline (recent_metrics.map (·.cpu_usage))),
     ("memory_usage", compute_baseline (recent_metrics.map (·.memory_usage))),
     ("network_connections",
       compute_baseline (recent_metrics.map (·.network_connections)))]

/-! ### Threat-indicator correlation (`_check_threat_indicators`)

Python source (collector.py, lines 249-273):

```
async def _check_threat_indicators(self, event):
    indicators = []
    if event.network_info:
        ip = event.network_info.get('source_ip')
        if ip:
            indicators.append(('ip', ip))
    if event.file_info:
        file_hash = event.file_info.get('hash')
        if file_hash:
            indicators.append(('hash', file_hash))
    for indicator_type, value in indicators:
        threat_key = f"{indicator_type}:{value}"
        if threat_key in self.threat_indicators:
            threat = self.threat_indicators[threat_key]
            threat.count += 1
            threat.last_seen = event.timestamp
            await self._generate_threat_alert(event, threat)
```

`if ip:` is Python truthiness, so an empty-string value is skipped (as
is a missing key); `if event.network_info:` skips both `None` and the
empty dict, and an empty dict also has no `source_ip` key, so the two
agree.  The in-place mutation of the stored `ThreatIndicator` is
modelled by rewriting its binding in the association-list table. -/

/-- `SecurityEvent` (collector.py, lines 30-43). -/
structure SecurityEvent where
  timestamp : String
  event_type : String
  source : String
  severity : String
  description : String
  details : List (String × String)
  host : String
  user : Option String := none
  process : Option String := none
  network_info : Option (List (String × String)) := none
  file_info : Option (List (String × String)) := none
deriving DecidableEq

/-- `ThreatIndicator` (collector.py, lines 58-68). -/
structure ThreatIndicator where
  indicator_type : String
  value : String
  threat_type : String
  confidence : ℚ
  first_seen : String
  last_seen : String
  count : Nat
  source : String
deriving DecidableEq

/-- The `indicators` list built at the top of
`_check_threat_indicators`. -/
def extract_indicators (ev : SecurityEvent) : List (String × String) :=
  (match ev.network_info with
   | none => []
   | some ni =>
     match dict_get ni "source_ip" with
     | none => []
     | some ip => if ip = "" then [] else [("ip", ip)]) ++
  (match ev.file_info with
   | none => []
   | some fi =>
     match dict_get fi "hash" with
     | none => []
     | some file_hash => if file_hash = "" then [] else [("hash", file_hash)])

/-- `f"{indicator_type}:{value}"`. -/
def threat_key (tv : String × String) : String := tv.1 ++ ":" ++ tv.2

/-- Rebind key `k` to `v` in an association list (the in-place update of
the object stored in a Python dict). -/
def dict_set {α : Type} (t : List (String × α)) (k : String) (v : α) :
    List (String × α) :=
  t.map (fun p => if p.1 = k then (k, v) else p)

/-- `threat.count += 1; threat.last_seen = event.timestamp`. -/
def bump_indicator (ev_ts : String) (thr : ThreatIndicator) : ThreatIndicator :=
  { thr with count := thr.count + 1, last_seen := ev_ts }

/-- One iteration of the `for indicator_type, value in indicators`
loop, carrying the table and the threat alerts emitted so far (an alert
references the event and the just-updated indicator). -/
def correlate_step (ev : SecurityEvent)
    (acc : List (String × ThreatIndicator) ×
      List (SecurityEvent × ThreatIndicator))
    (tv : String × String) :
    List (String × ThreatIndicator) × List (SecurityEvent × ThreatIndicator) :=
  match dict_get acc.1 (threat_key tv) with
  | none => acc
  | some thr =>
    (dict_set acc.1 (threat_key tv) (bump_indicator ev.timestamp thr),
      acc.2 ++ [(ev, bump_indicator ev.timestamp thr)])

/-- `_check_threat_indicators`: returns the updated indicator table and
the list of emitted threat alerts. -/
def check_threat_indicators (table : List (String × ThreatIndicator))
    (ev : SecurityEvent) :
    List (String × ThreatIndicator) × List (SecurityEvent × ThreatIndicator) :=
  (extract_indicators ev).foldl (correlate_step ev) (table, [])

/-- A concrete stored threat indicator used by the C8 witness. -/
def sample_threat : ThreatIndicator :=
  { indicator_type := "ip", value := "10.0.0.5", threat_type := "botnet",
    confidence := 1, first_seen := "2024-01-01T00:00:00",
    last_seen := "2024-01-01T00:00:00", count := 5, source := "feed" }

/-- A concrete security event whose source IP matches `sample_threat`. -/
def sample_event : SecurityEvent :=
  { timestamp := "2024-01-02T03:04:05", event_type := "authentication_failure",
    source := "auth_log", severity := "medium",
    description := "Failed password authentication", details := [],
    host := "host1", network_info := some [("source_ip", "10.0.0.5")] }

/-! ### Bounded FIFO buffers

Python source (collector.py, lines 75-76):

```
self.events_buffer = deque(maxlen=10000)
self.metrics_buffer = deque(maxlen=1000)
```

`deque(maxlen=C).append(x)` silently discards the leftmost (oldest)
entry when the deque already holds `C` entries; no error or signal is
raised.  With the invariant `buf.length ≤ C` (which holds for every
buffer built by appends from empty), one append is exactly: add on the
right, then drop from the left down to `C` entries. -/

def events_buffer_maxlen : Nat := 10000

def metrics_buffer_maxlen : Nat := 1000

/-- One `deque(maxlen).append`: push right, evict left overflow. -/
def deque_append {α : Type} (maxlen : Nat) (buf : List α) (x : α) : List α :=
  (buf ++ [x]).drop (buf.length + 1 - maxlen)

/-! ### Web-access log parsing (`ApacheLogParser`/`NginxLogParser`)

Python source (collector.py, lines 609-661; the two classes differ only
in the `source` field of the produced events):

```
async def _parse_content(self, content):
    events = []
    for line in content.strip().split('\n'):
        if not line:
            continue
        if any(status in line for status in [' 403 ', ' 404 ', ' 500 ']):
            severity = 'medium' if ' 403 ' in line else 'low'
            event = SecurityEvent(
                timestamp=datetime.utcnow().isoformat(),
                event_type='web_access',
                source='apache_log',   # 'nginx_log' in NginxLogParser
                severity=severity,
                description='Web access event',
                details={'log_line': line},
                host=os.uname().nodename)
            events.append(event)
    return events
```

The wall-clock timestamp and the hostname are passed as parameters. -/

/-- `chars_lead needle hay`: `needle` is an initial run of `hay`. -/
def chars_lead : List Char → List Char → Bool
  | [], _ => true
  | _ :: _, [] => false
  | a :: as, b :: bs => a = b && chars_lead as bs

/-- `chars_contain needle hay`: `needle` occurs contiguously in `hay`. -/
def chars_contain (needle : List Char) : List Char → Bool
  | [] => needle.isEmpty
  | c :: rest => chars_lead needle (c :: rest) || chars_contain needle rest

/-- Python's `needle in hay` on strings. -/
def str_contains (hay needle : String) : Bool :=
  chars_contain needle.data hay.data

/-- Python `str.strip()` whitespace set. -/
def py_is_space (c : Char) : Bool :=
  c = ' ' || c = '\t' || c = '\n' || c = '\r' || c = '\x0b' || c = '\x0c'

/-- Python `content.strip()`. -/
def py_strip (s : String) : String :=
  ⟨((s.data.dropWhile py_is_space).reverse.dropWhile py_is_space).reverse⟩

/-- Python `content.strip().split('\n')`. -/
def py_lines (content : String) : List String :=
  (py_strip content).splitOn "\n"

/-- The per-line body of the web-access loop: `none` when the line is
empty or matches no status code (the line is dropped, the batch
continues); `src` is `"apache_log"` or `"nginx_log"`. -/
def web_parse_line (src now_iso host line : String) : Option SecurityEvent :=
  if line = "" then none
  else if str_contains line " 403 " || str_contains line " 404 " ||
      str_contains line " 500 " then
    some { timestamp := now_iso, event_type := "web_access", source := src,
           severity := if str_contains line " 403 " then "medium" else "low",
           description := "Web access event",
           details := [("log_line", line)], host := host }
  else none

/-- `ApacheLogParser._parse_content`. -/
def apache_parse_content (now_iso host content : String) :
    List SecurityEvent :=
  (py_lines content).filterMap (web_parse_line "apache_log" now_iso host)

/-- `NginxLogParser._parse_content`. -/
def nginx_parse_content (now_iso host content : String) :
    List SecurityEvent :=
  (py_lines content).filterMap (web_parse_line "nginx_log" now_iso host)

/-! ### Alert generation and alert ids

Python source (collector.py, lines 358-429):

```
async def _generate_alert(self, event):
    alert = {'type': 'security_alert',
             'timestamp': datetime.utcnow().isoformat(),
             'event': asdict(event),
             'alert_id': self._generate_alert_id(event)}

async def _generate_threat_alert(self, event, threat):
    alert = {'type': 'threat_alert', ...,
             'alert_id': self._generate_alert_id(event, 'threat')}

async def _generate_resource_alert(self, resource_type, value, mount=None):
    alert = {'type': 'resource_alert', ...,
             'alert_id': hashlib.md5(
                 f"{resource_type}_{value}_{int(time.time())}"
                 .encode()).hexdigest()[:16]}

async def _generate_anomaly_alert(self, metric_name, current_value,
                                  baseline, severity):
    alert = {'type': 'anomaly_alert', ...,
             'alert_id': hashlib.md5(
                 f"anomaly_{metric_name}_{int(time.time())}"
                 .encode()).hexdigest()[:16]}

def _generate_alert_id(self, event, prefix='sec'):
    data = f"{prefix}_{event.timestamp}_{event.event_type}_{event.source}"
    return hashlib.md5(data.encode()).hexdigest()[:16]
```

Each alert's `alert_id` is `md5(data).hexdigest()[:16]` for the data
string modelled below in `alert_id_data`; MD5 is a deterministic
function, so equal data strings give literally equal ids, and distinct
data strings give distinct ids barring an MD5 collision (the caveat the
specification itself makes).  `int(time.time())` is the epoch second at
generation time, passed as `now_sec`; the f-string rendering of the
float `value` is passed as the string `value_repr`; the human-readable
`description` fields (float `:.2f` formatting) are omitted. -/

/-- `_generate_alert_id`: the string hashed into the id. -/
def generate_alert_id_data (ev : SecurityEvent) (pfx : String) : String :=
  pfx ++ "_" ++ ev.timestamp ++ "_" ++ ev.event_type ++ "_" ++ ev.source

structure SecurityAlert where
  atype : String
  timestamp : String
  event : SecurityEvent
  alert_id_data : String
deriving DecidableEq

/-- `_generate_alert` (security alerts, for critical/high events). -/
def generate_alert (now_iso : String) (ev : SecurityEvent) : SecurityAlert :=
  { atype := "security_alert", timestamp := now_iso, event := ev,
    alert_id_data := generate_alert_id_data ev "sec" }

structure ThreatAlert where
  atype : String
  timestamp : String
  event : SecurityEvent
  threat : ThreatIndicator
  alert_id_data : String
deriving DecidableEq

/-- `_generate_threat_alert`. -/
def generate_threat_alert (now_iso : String) (ev : SecurityEvent)
    (threat : ThreatIndicator) : ThreatAlert :=
  { atype := "threat_alert", timestamp := now_iso, event := ev,
    threat := threat, alert_id_data := generate_alert_id_data ev "threat" }

structure ResourceAlert where
  atype : String
  timestamp : String
  resource_type : String
  value_repr : String
  mount : Option String
  alert_id_data : String
deriving DecidableEq

/-- `_generate_resource_alert`. -/
def generate_resource_alert (now_iso : String) (now_sec : Nat)
    (resource_type value_repr : String) (mount : Option String) :
    ResourceAlert :=
  { atype := "resource_alert", timestamp := now_iso,
    resource_type := resource_type, value_repr := value_repr, mount := mount,
    alert_id_data :=
      resource_type ++ "_" ++ value_repr ++ "_" ++ Nat.repr now_sec }

structure AnomalyAlert where
  atype : String
  timestamp : String
  metric_name : String
  current_value : ℚ
  baseline : Baseline
  severity : String
  alert_id_data : String
deriving DecidableEq

/-- `_generate_anomaly_alert`. -/
def generate_anomaly_alert (now_iso : String) (now_sec : Nat)
    (metric_name : String) (current_value : ℚ) (baseline : Baseline)
    (severity : String) : AnomalyAlert :=
  { atype := "anomaly_alert", timestamp := now_iso,
    metric_name := metric_name, current_value := current_value,
    baseline := baseline, severity := severity,
    alert_id_data := "anomaly_" ++ metric_name ++ "_" ++ Nat.repr now_sec }

/-! ### Theorems -/

theorem last_snap_cons (c c' : List Nat) (cs : List (List Nat)) :
    last_snap c (c' :: cs) = last_snap c' cs := rfl

theorem grows_from_extends (c : List Nat) (cs : List (List Nat))
    (h : grows_from c cs) : ∃ d, last_snap c cs = c ++ d := by
  induction cs generalizing c with
  | nil => exact ⟨[], by simp [last_snap]⟩
  | cons c' cs ih =>
    obtain ⟨⟨d, hd⟩, hrest⟩ := h
    obtain ⟨e, he⟩ := ih c' hrest
    exact ⟨d ++ e, by rw [last_snap_cons, he, hd, List.append_assoc]⟩

theorem drop_append_of_le {α : Type} (l₁ l₂ : List α) (n : Nat)
    (h : n ≤ l₁.length) : (l₁ ++ l₂).drop n = l₁.drop n ++ l₂ := by
  induction l₁ generalizing n with
  | nil => simp at h; simp [h]
  | cons a l ih =>
    cases n with
    | zero => simp
    | succ m => simpa using ih m (Nat.le_of_succ_le_succ h)

theorem tail_success_same (st : TailState) (i : Nat) (c : List Nat)
    (hst : st.last_inode = some i)
    (hpos : st.last_position ≤ c.length) :
    tail_success st i c = (c.drop st.last_position, ⟨c.length, some i⟩) := by
  have hrot : rotated st i = false := by
    simp [rotated, hst]
  simp [tail_success, parse_new_events, hrot, Nat.max_eq_right hpos]

theorem tail_run_chain (i : Nat) (c : List Nat) (cs : List (List Nat))
    (st : TailState) (hst : st.last_inode = some i)
    (hpos : st.last_position ≤ c.length) (hgrow : grows_from c cs) :
    tail_run st i (c :: cs) =
      ((last_snap c cs).drop st.last_position,
        ⟨(last_snap c cs).length, some i⟩) := by
  induction cs generalizing c st with
  | nil =>
    simp [tail_run, last_snap, tail_success_same st i c hst hpos]
  | cons c' cs ih =>
    obtain ⟨⟨d, hd⟩, hrest⟩ := hgrow
    have hlen : c.length ≤ c'.length := by
      subst hd; simp
    have step := tail_success_same st i c hst hpos
    have tail_eq := ih c' (⟨c.length, some i⟩ : TailState) rfl hlen hrest
    show (let r := tail_success st i c;
          let rest := tail_run r.2 i (c' :: cs);
          (r.1 ++ rest.1, rest.2)) = _
    rw [step]
    simp only [last_snap_cons]
    rw [tail_eq]
    refine Prod.ext ?_ rfl
    show c.drop st.last_position ++ (last_snap c' cs).drop c.length =
      (last_snap c' cs).drop st.last_position
    obtain ⟨e, he⟩ := grows_from_extends c' cs hrest
    have hce : last_snap c' cs = c ++ (d ++ e) := by
      rw [he, hd, List.append_assoc]
    rw [hce, drop_append_of_le c (d ++ e) st.last_position hpos]
    simp

theorem foldl_min_spec (xs : List ℚ) (x : ℚ) :
    xs.foldl min x ∈ x :: xs ∧ ∀ y ∈ x :: xs, xs.foldl min x ≤ y := by
  induction xs generalizing x with
  | nil => simp
  | cons a xs ih =>
    have hfold : (a :: xs).foldl min x = xs.foldl min (min x a) := rfl
    obtain ⟨hmem, hle⟩ := ih (min x a)
    constructor
    · rw [hfold]
      rcases List.mem_cons.mp hmem with h | h
      · rcases min_choice x a with hc | hc <;> rw [h, hc] <;> simp
      · simp [h]
    · intro y hy
      rw [hfold]
      rcases List.mem_cons.mp hy with h | hy'
      · subst h
        exact le_trans (hle (min y a) (List.mem_cons_self _ _)) (min_le_left y a)
      rcases List.mem_cons.mp hy' with h | h
      · subst h
        exact le_trans (hle (min x y) (List.mem_cons_self _ _)) (min_le_right x y)
      · exact hle y (List.mem_cons_of_mem _ h)

theorem foldl_max_spec (xs : List ℚ) (x : ℚ) :
    xs.foldl max x ∈ x :: xs ∧ ∀ y ∈ x :: xs, y ≤ xs.foldl max x := by
  induction xs generalizing x with
  | nil => simp
  | cons a xs ih =>
    have hfold : (a :: xs).foldl max x = xs.foldl max (max x a) := rfl
    obtain ⟨hmem, hle⟩ := ih (max x a)
    constructor
    · rw [hfold]
      rcases List.mem_cons.mp hmem with h | h
      · rcases max_choice x a with hc | hc <;> rw [h, hc] <;> simp
      · simp [h]
    · intro y hy
      rw [hfold]
      rcases List.mem_cons.mp hy with h | hy'
      · subst h
        exact le_trans (le_max_left y a) (hle (max y a) (List.mem_cons_self _ _))
      rcases List.mem_cons.mp hy' with h | h
      · subst h
        exact le_trans (le_max_right x y) (hle (max x y) (List.mem_cons_self _ _))
      · exact hle y (List.mem_cons_of_mem _ h)

/-- Sum of squared deviations about an arbitrary centre `c`, expanded. -/
theorem sum_sq_dev (c : ℚ) (l : List ℚ) :
    (l.map (fun x => (x - c) ^ 2)).sum =
      (l.map (fun x => x ^ 2)).sum - 2 * c * l.sum + (l.length : ℚ) * c ^ 2 := by
  induction l with
  | nil => simp
  | cons a l ih =>
    simp only [List.map_cons, List.sum_cons, List.length_cons, ih]
    push_cast
    ring

/-- Claim C6: a baseline is computed only when the metrics buffer holds
at least 50 samples (fewer leave the table empty); when computed, for
each of cpu_usage, memory_usage and network_connections it is taken
over the 50 most recent samples and satisfies, per metric: mean·n = sum
(the arithmetic mean), variance = (sum of squares)/n − mean² (the
population variance, divisor n — the stored std is its square root),
and min/max are a least and a greatest element of the window. -/
theorem claim_C6_baseline_statistics :
    (∀ (buffer : List SystemMetrics), buffer.length < 50 →
        establish_baseline buffer = []) ∧
    (∀ (buffer : List SystemMetrics), 50 ≤ buffer.length →
        (buffer.drop (buffer.length - 50)).length = 50 ∧
        establish_baseline buffer =
          [("cpu_usage", compute_baseline
              ((buffer.drop (buffer.length - 50)).map (·.cpu_usage))),
           ("memory_usage", compute_baseline
              ((buffer.drop (buffer.length - 50)).map (·.memory_usage))),
           ("network_connections", compute_baseline
              ((buffer.drop (buffer.length - 50)).map
                (·.network_connections)))]) ∧
    (∀ (values : List ℚ), values ≠ [] →
        (compute_baseline values).mean * (values.length : ℚ) = values.sum ∧
        (compute_baseline values).variance =
          (values.map (fun x => x ^ 2)).sum / (values.length : ℚ) -
            (compute_baseline values).mean ^ 2 ∧
        (compute_baseline values).stat_min ∈ values ∧
        (∀ x ∈ values, (compute_baseline values).stat_min ≤ x) ∧
        (compute_baseline values).stat_max ∈ values ∧
        (∀ x ∈ values, x ≤ (compute_baseline values).stat_max)) := by
  refine ⟨?_, ?_, ?_⟩
  · intro buffer h
    simp [establish_baseline, h]
  · intro buffer h
    constructor
    · simp only [List.length_drop]
      omega
    · simp [establish_baseline, not_lt.mpr h]
  · intro values hne
    have hlen : values.length ≠ 0 := by
      simpa [List.length_eq_zero] using hne
    have hn : ((values.length : Nat) : ℚ) ≠ 0 := by exact_mod_cast hlen
    refine ⟨?_, ?_, ?_⟩
    · exact div_mul_cancel₀ values.sum hn
    · have hm : (compute_baseline values).mean =
          values.sum / (values.length : ℚ) := rfl
      have hv : (compute_baseline values).variance =
          (values.map
            (fun x => (x - values.sum / (values.length : ℚ)) ^ 2)).sum /
              (values.length : ℚ) := rfl
      rw [hv, hm, sum_sq_dev]
      field_simp
      ring
    · obtain ⟨x, xs, rfl⟩ := List.exists_cons_of_ne_nil hne
      have hmin := foldl_min_spec xs x
      have hmax := foldl_max_spec xs x
      have hvmin : (compute_baseline (x :: xs)).stat_min = xs.foldl min x := rfl
      have hvmax : (compute_baseline (x :: xs)).stat_max = xs.foldl max x := rfl
      rw [hvmin, hvmax]
      exact ⟨hmin.1, hmin.2, hmax.1, hmax.2⟩

/-- Witness for C6: the empty buffer establishes nothing, and on the
concrete window `[1, 3]` the computed statistics are mean 2, population
variance 1 (std 1), min 1 and max 3. -/
theorem claim_C6_witness :
    (([] : List SystemMetrics).length < 50 ∧
      establish_baseline [] = []) ∧
    (([1, 3] : List ℚ) ≠ [] ∧
      (compute_baseline [1, 3]).mean * ((([1, 3] : List ℚ).length : Nat) : ℚ) =
        ([1, 3] : List ℚ).sum ∧
      (compute_baseline [1, 3]).stat_min ∈ ([1, 3] : List ℚ) ∧
      (compute_baseline [1, 3]).variance = 1) := by
  refine ⟨⟨by decide, claim_C6_baseline_statistics.1 [] (by decide)⟩, ?_⟩
  have h := claim_C6_baseline_statistics.2.2 [1, 3] (by decide)
  refine ⟨by decide, h.1, h.2.2.1, ?_⟩
  have hv := h.2.1
  have hm : (compute_baseline ([1, 3] : List ℚ)).mean = 2 := by
    norm_num [compute_baseline, List.sum_cons]
  rw [hm] at hv
  norm_num [List.sum_cons] at hv
  exact hv

/-- Claim C2: for a metric whose established baseline has nonzero std,
the check averages the 10 most recent buffered samples and classifies by
`z = |recent_mean - baseline.mean| / baseline.std`: `z ≤ 2` raises no
alert, `2 < z ≤ 3` raises a medium-severity anomaly alert, `z > 3` a
high-severity one (so `z = 3` is medium and anything above is high); a
metric with no baseline entry is skipped silently; `_detect_anomalies`
feeds each check exactly the `[-10:]` slice of the metrics buffer. -/
theorem claim_C2_anomaly_classification :
    (∀ (bm : List (String × Baseline)) (name : String) (values : List ℚ)
        (b : Baseline), dict_get bm name = some b → b.std ≠ 0 → values ≠ [] →
        ∀ z : ℚ, z = |values.sum / (values.length : ℚ) - b.mean| / b.std →
        (z ≤ 2 → check_metric_anomaly bm name values = .ok none) ∧
        (2 < z → z ≤ 3 →
          check_metric_anomaly bm name values = .ok (some "medium")) ∧
        (3 < z → check_metric_anomaly bm name values = .ok (some "high"))) ∧
    (∀ (bm : List (String × Baseline)) (name : String) (values : List ℚ),
        dict_get bm name = none →
        check_metric_anomaly bm name values = .ok none) ∧
    (∀ (bm : List (String × Baseline)) (buffer : List SystemMetrics),
        detect_anomalies bm buffer =
          [check_metric_anomaly bm "cpu_usage"
              ((recent_ten buffer).map (·.cpu_usage)),
           check_metric_anomaly bm "memory_usage"
              ((recent_ten buffer).map (·.memory_usage)),
           check_metric_anomaly bm "network_connections"
              ((recent_ten buffer).map (·.network_connections))]) ∧
    (∀ (buffer : List SystemMetrics), 10 ≤ buffer.length →
        (recent_ten buffer).length = 10 ∧
        recent_ten buffer = buffer.drop (buffer.length - 10)) := by
  refine ⟨?_, ?_, fun bm buffer => rfl, ?_⟩
  · intro bm name values b hb hstd hne z hz
    have hlen : ¬ values.length = 0 := by
      simpa [List.length_eq_zero] using hne
    simp only [check_metric_anomaly, hb, if_neg hlen, if_neg hstd, ← hz]
    refine ⟨fun h1 => ?_, fun h1 h2 => ?_, fun h1 => ?_⟩
    · rw [if_neg (not_lt.mpr h1)]
    · rw [if_pos h1, if_neg (not_lt.mpr h2)]
    · rw [if_pos (lt_trans (by norm_num) h1), if_pos h1]
  · intro bm name values hb
    simp [check_metric_anomaly, hb]
  · intro buffer h
    refine ⟨?_, rfl⟩
    simp [recent_ten]
    omega

/-- Witness for C2: a baseline of mean 10 and std 1 with recent samples
averaging 13 gives z = 3, exactly the boundary the claim pins to
medium severity. -/
theorem claim_C2_witness :
    dict_get [("cpu_usage", (⟨10, 1, 0, 20⟩ : Baseline))] "cpu_usage" =
        some ⟨10, 1, 0, 20⟩ ∧
    (1 : ℚ) ≠ 0 ∧ ([13, 13] : List ℚ) ≠ [] ∧
    (3 : ℚ) = |([13, 13] : List ℚ).sum / ((([13, 13] : List ℚ).length : Nat) : ℚ)
        - (10 : ℚ)| / (1 : ℚ) ∧
    check_metric_anomaly [("cpu_usage", ⟨10, 1, 0, 20⟩)] "cpu_usage" [13, 13] =
      .ok (some "medium") := by
  refine ⟨rfl, by norm_num, by decide, by norm_num [List.sum_cons], ?_⟩
  exact ((claim_C2_anomaly_classification.1 [("cpu_usage", ⟨10, 1, 0, 20⟩)]
      "cpu_usage" [13, 13] ⟨10, 1, 0, 20⟩ rfl (by norm_num) (by decide) 3
      (by norm_num [List.sum_cons])).2.1 (by norm_num) (by norm_num))

/-- Claim C3 counterexample: the claim says a baseline with std = 0 is
explicitly guarded and treated as no anomaly, but the code divides by
`baseline['std']` unguarded: with mean 10, std 0 and a sample of 12 the
check raises `ZeroDivisionError` (modelled as `.error ()`) instead of
returning no alert. -/
theorem claim_C3_counterexample :
    check_metric_anomaly [("cpu_usage", ⟨10, 0, 0, 20⟩)] "cpu_usage" [12] =
      .error () ∧
    check_metric_anomaly [("cpu_usage", ⟨10, 0, 0, 20⟩)] "cpu_usage" [12] ≠
      .ok none := by
  decide

/-- Claim C3 (amended): the z-score division is not guarded — for every
metric whose established baseline has std = 0 and whose sample window is
nonempty, `_check_metric_anomaly` raises `ZeroDivisionError` (caught and
logged only by the surrounding detection loop); the division-by-zero
branch is reachable and no alert is produced. -/
theorem claim_C3_std_zero_raises :
    ∀ (bm : List (String × Baseline)) (name : String) (values : List ℚ)
      (b : Baseline), dict_get bm name = some b → b.std = 0 → values ≠ [] →
      check_metric_anomaly bm name values = .error () := by
  intro bm name values b hb hstd hne
  have hlen : ¬ values.length = 0 := by
    simpa [List.length_eq_zero] using hne
  simp [check_metric_anomaly, hb, if_neg hlen, hstd]

/-- Witness for the amended C3: the degenerate baseline (std 0) makes
the concrete check raise. -/
theorem claim_C3_witness :
    dict_get [("cpu_usage", (⟨10, 0, 0, 20⟩ : Baseline))] "cpu_usage" =
        some ⟨10, 0, 0, 20⟩ ∧
    (⟨10, 0, 0, 20⟩ : Baseline).std = 0 ∧ ([12] : List ℚ) ≠ [] ∧
    check_metric_anomaly [("cpu_usage", ⟨10, 0, 0, 20⟩)] "cpu_usage" [12] =
      .error () :=
  ⟨rfl, rfl, by decide,
    claim_C3_std_zero_raises [("cpu_usage", ⟨10, 0, 0, 20⟩)] "cpu_usage" [12]
      ⟨10, 0, 0, 20⟩ rfl rfl (by decide)⟩

theorem correlate_step_none (ev : SecurityEvent)
    (t : List (String × ThreatIndicator))
    (al : List (SecurityEvent × ThreatIndicator)) (tv : String × String)
    (h : dict_get t (threat_key tv) = none) :
    correlate_step ev (t, al) tv = (t, al) := by
  simp [correlate_step, h]

theorem correlate_step_some (ev : SecurityEvent)
    (t : List (String × ThreatIndicator))
    (al : List (SecurityEvent × ThreatIndicator)) (tv : String × String)
    (thr : ThreatIndicator) (h : dict_get t (threat_key tv) = some thr) :
    correlate_step ev (t, al) tv =
      (dict_set t (threat_key tv) (bump_indicator ev.timestamp thr),
        al ++ [(ev, bump_indicator ev.timestamp thr)]) := by
  simp [correlate_step, h]

theorem dict_get_set_self {α : Type} (t : List (String × α)) (k : String)
    (v : α) :
    dict_get (dict_set t k v) k = (dict_get t k).map (fun _ => v) := by
  induction t with
  | nil => rfl
  | cons p t ih =>
    by_cases h : p.1 = k
    · simp [dict_set, dict_get, h]
    · simp only [dict_set, List.map_cons, if_neg h, dict_get, h,
        if_false] at ih ⊢
      exact ih

theorem dict_get_set_ne {α : Type} (t : List (String × α)) (k k' : String)
    (v : α) (h : k' ≠ k) :
    dict_get (dict_set t k v) k' = dict_get t k' := by
  induction t with
  | nil => rfl
  | cons p t ih =>
    by_cases hp : p.1 = k
    · have h1 : ¬ (k = k') := Ne.symm h
      have h2 : ¬ (p.1 = k') := by rw [hp]; exact h1
      simp only [dict_set, List.map_cons, if_pos hp]
      show (if k = k' then some v else dict_get (dict_set t k v) k') =
        (if p.1 = k' then some p.2 else dict_get t k')
      rw [if_neg h1, if_neg h2]
      exact ih
    · simp only [dict_set, List.map_cons, if_neg hp]
      show (if p.1 = k' then some p.2 else dict_get (dict_set t k v) k') =
        (if p.1 = k' then some p.2 else dict_get t k')
      rw [ih]

theorem dict_get_set_isSome {α : Type} (t : List (String × α))
    (k k' : String) (v : α) :
    (dict_get (dict_set t k v) k').isSome = (dict_get t k').isSome := by
  by_cases h : k' = k
  · subst h
    rw [dict_get_set_self]
    cases dict_get t k' <;> rfl
  · rw [dict_get_set_ne t k k' v h]

theorem correlate_fold_alerts_length (ev : SecurityEvent)
    (cands : List (String × String)) :
    ∀ (t : List (String × ThreatIndicator))
      (al : List (SecurityEvent × ThreatIndicator)),
      (cands.foldl (correlate_step ev) (t, al)).2.length =
        al.length +
          cands.countP (fun tv => (dict_get t (threat_key tv)).isSome) := by
  induction cands with
  | nil => intro t al; simp
  | cons c cs ih =>
    intro t al
    rw [List.foldl_cons]
    cases hcg : dict_get t (threat_key c) with
    | none =>
      rw [correlate_step_none ev t al c hcg, ih t al, List.countP_cons]
      simp [hcg]
    | some thr =>
      rw [correlate_step_some ev t al c thr hcg, ih _ _]
      have hcong : cs.countP (fun tv =>
          (dict_get (dict_set t (threat_key c) (bump_indicator ev.timestamp thr))
            (threat_key tv)).isSome) =
          cs.countP (fun tv => (dict_get t (threat_key tv)).isSome) := by
        apply List.countP_congr
        intro tv _
        rw [dict_get_set_isSome]
      rw [hcong, List.countP_cons]
      simp only [List.length_append, List.length_cons, List.length_nil, hcg,
        Option.isSome_some, if_true]
      omega

theorem correlate_fold_mem_alerts (ev : SecurityEvent)
    (cands : List (String × String)) :
    ∀ (t : List (String × ThreatIndicator))
      (al : List (SecurityEvent × ThreatIndicator))
      (x : SecurityEvent × ThreatIndicator), x ∈ al →
      x ∈ (cands.foldl (correlate_step ev) (t, al)).2 := by
  induction cands with
  | nil => intro t al x hx; simpa using hx
  | cons c cs ih =>
    intro t al x hx
    rw [List.foldl_cons]
    cases hcg : dict_get t (threat_key c) with
    | none =>
      rw [correlate_step_none ev t al c hcg]
      exact ih t al x hx
    | some thr =>
      rw [correlate_step_some ev t al c thr hcg]
      exact ih _ _ x (List.mem_append_left _ hx)

theorem correlate_fold_get_notmem (ev : SecurityEvent)
    (cands : List (String × String)) :
    ∀ (t : List (String × ThreatIndicator))
      (al : List (SecurityEvent × ThreatIndicator)) (k : String),
      k ∉ cands.map threat_key →
      dict_get (cands.foldl (correlate_step ev) (t, al)).1 k = dict_get t k := by
  induction cands with
  | nil => intro t al k _; rfl
  | cons c cs ih =>
    intro t al k hk
    have hk1 : k ≠ threat_key c := by
      intro h; exact hk (by simp [h])
    have hk2 : k ∉ cs.map threat_key := by
      intro h; exact hk (by simp [h])
    rw [List.foldl_cons]
    cases hcg : dict_get t (threat_key c) with
    | none =>
      rw [correlate_step_none ev t al c hcg]
      exact ih t al k hk2
    | some thr =>
      rw [correlate_step_some ev t al c thr hcg]
      rw [ih _ _ k hk2, dict_get_set_ne t (threat_key c) k _ hk1]

theorem correlate_fold_nomatch (ev : SecurityEvent)
    (cands : List (String × String)) :
    ∀ (t : List (String × ThreatIndicator))
      (al : List (SecurityEvent × ThreatIndicator)),
      (∀ tv ∈ cands, dict_get t (threat_key tv) = none) →
      cands.foldl (correlate_step ev) (t, al) = (t, al) := by
  induction cands with
  | nil => intro t al _; rfl
  | cons c cs ih =>
    intro t al h
    rw [List.foldl_cons, correlate_step_none ev t al c (h c (by simp))]
    exact ih t al (fun tv htv => h tv (List.mem_cons_of_mem _ htv))

theorem correlate_fold_match (ev : SecurityEvent)
    (cands : List (String × String)) :
    ∀ (t : List (String × ThreatIndicator))
      (al : List (SecurityEvent × ThreatIndicator)) (tv : String × String)
      (thr : ThreatIndicator),
      List.Pairwise (fun a b => threat_key a ≠ threat_key b) cands →
      tv ∈ cands → dict_get t (threat_key tv) = some thr →
      dict_get (cands.foldl (correlate_step ev) (t, al)).1 (threat_key tv) =
        some (bump_indicator ev.timestamp thr) ∧
      (ev, bump_indicator ev.timestamp thr) ∈
        (cands.foldl (correlate_step ev) (t, al)).2 := by
  induction cands with
  | nil => intro t al tv thr _ h; simp at h
  | cons c cs ih =>
    intro t al tv thr hpw hmem hget
    obtain ⟨hpw1, hpw2⟩ := List.pairwise_cons.mp hpw
    rcases List.mem_cons.mp hmem with rfl | hmem'
    · rw [List.foldl_cons, correlate_step_some ev t al tv thr hget]
      have hknotin : threat_key tv ∉ cs.map threat_key := by
        simp only [List.mem_map]
        rintro ⟨b, hb, hbeq⟩
        exact hpw1 b hb hbeq.symm
      constructor
      · rw [correlate_fold_get_notmem ev cs _ _ _ hknotin,
          dict_get_set_self, hget]
        rfl
      · exact correlate_fold_mem_alerts ev cs _ _ _ (by simp)
    · have hkne : threat_key tv ≠ threat_key c := (hpw1 tv hmem').symm
      rw [List.foldl_cons]
      cases hcg : dict_get t (threat_key c) with
      | none =>
        rw [correlate_step_none ev t al c hcg]
        exact ih t al tv thr hpw2 hmem' hget
      | some thrc =>
        rw [correlate_step_some ev t al c thrc hcg]
        have hget' : dict_get
            (dict_set t (threat_key c) (bump_indicator ev.timestamp thrc))
            (threat_key tv) = some thr := by
          rw [dict_get_set_ne t (threat_key c) (threat_key tv) _ hkne, hget]
        exact ih _ _ tv thr hpw2 hmem' hget'

theorem ip_hash_key_ne (v w : String) :
    ("ip" : String) ++ ":" ++ v ≠ ("hash" : String) ++ ":" ++ w := by
  cases v with | mk lv =>
  cases w with | mk lw =>
  intro h
  have hd : ('i' :: 'p' :: ':' :: lv) = ('h' :: 'a' :: 's' :: 'h' :: ':' :: lw) :=
    congrArg String.data h
  simp at hd

theorem extract_indicators_pairwise (ev : SecurityEvent) :
    List.Pairwise (fun a b => threat_key a ≠ threat_key b)
      (extract_indicators ev) := by
  unfold extract_indicators
  rcases ev.network_info with _ | ni <;> rcases ev.file_info with _ | fi <;>
    simp only []
  · exact List.Pairwise.nil
  · rcases dict_get fi "hash" with _ | h
    · exact List.Pairwise.nil
    · by_cases hh : h = "" <;> simp [hh]
  · rcases dict_get ni "source_ip" with _ | ip
    · exact List.Pairwise.nil
    · by_cases hip : ip = "" <;> simp [hip]
  · rcases dict_get ni "source_ip" with _ | ip <;>
      rcases dict_get fi "hash" with _ | h
    · exact List.Pairwise.nil
    · by_cases hh : h = "" <;> simp [hh]
    · by_cases hip : ip = "" <;> simp [hip]
    · by_cases hip : ip = "" <;> by_cases hh : h = "" <;> simp [hip, hh]
      exact ip_hash_key_ne ip h

/-- Claim C8: an incoming event whose extracted candidate indicator
(source IP under key `ip:<value>`, or file hash under key
`hash:<value>`) matches a threat-table entry has that indicator's count
incremented by exactly 1 and its last_seen set to the event timestamp,
and one threat alert referencing the event and the updated indicator is
emitted; an event with no matching candidate leaves the table unchanged
and emits nothing, and keys outside the candidates are never touched. -/
theorem claim_C8_threat_correlation :
    (∀ (table : List (String × ThreatIndicator)) (ev : SecurityEvent),
        (∀ tv ∈ extract_indicators ev,
          dict_get table (threat_key tv) = none) →
        check_threat_indicators table ev = (table, [])) ∧
    (∀ (table : List (String × ThreatIndicator)) (ev : SecurityEvent)
        (tv : String × String) (thr : ThreatIndicator),
        tv ∈ extract_indicators ev →
        dict_get table (threat_key tv) = some thr →
        (bump_indicator ev.timestamp thr).count = thr.count + 1 ∧
        (bump_indicator ev.timestamp thr).last_seen = ev.timestamp ∧
        dict_get (check_threat_indicators table ev).1 (threat_key tv) =
          some (bump_indicator ev.timestamp thr) ∧
        (ev, bump_indicator ev.timestamp thr) ∈
          (check_threat_indicators table ev).2) ∧
    (∀ (table : List (String × ThreatIndicator)) (ev : SecurityEvent)
        (k : String), k ∉ (extract_indicators ev).map threat_key →
        dict_get (check_threat_indicators table ev).1 k = dict_get table k) ∧
    (∀ (table : List (String × ThreatIndicator)) (ev : SecurityEvent),
        (check_threat_indicators table ev).2.length =
          (extract_indicators ev).countP
            (fun tv => (dict_get table (threat_key tv)).isSome)) := by
  refine ⟨?_, ?_, ?_, ?_⟩
  · intro table ev h
    exact correlate_fold_nomatch ev (extract_indicators ev) table [] h
  · intro table ev tv thr hmem hget
    have h := correlate_fold_match ev (extract_indicators ev) table [] tv thr
      (extract_indicators_pairwise ev) hmem hget
    exact ⟨rfl, rfl, h.1, h.2⟩
  · intro table ev k hk
    exact correlate_fold_get_notmem ev (extract_indicators ev) table [] k hk
  · intro table ev
    simpa using correlate_fold_alerts_length ev (extract_indicators ev)
      table []

/-- Witness for C8: the concrete matching event bumps the stored
indicator from count 5 to count 6, stamps it with the event's
timestamp, and emits the threat alert. -/
theorem claim_C8_witness :
    ("ip", "10.0.0.5") ∈ extract_indicators sample_event ∧
    dict_get [("ip:10.0.0.5", sample_threat)]
      (threat_key ("ip", "10.0.0.5")) = some sample_threat ∧
    dict_get (check_threat_indicators [("ip:10.0.0.5", sample_threat)]
        sample_event).1 (threat_key ("ip", "10.0.0.5")) =
      some (bump_indicator "2024-01-02T03:04:05" sample_threat) ∧
    (bump_indicator "2024-01-02T03:04:05" sample_threat).count = 6 ∧
    (sample_event, bump_indicator "2024-01-02T03:04:05" sample_threat) ∈
      (check_threat_indicators [("ip:10.0.0.5", sample_threat)]
        sample_event).2 := by
  have hmem : ("ip", "10.0.0.5") ∈ extract_indicators sample_event := by
    decide
  have hget : dict_get [("ip:10.0.0.5", sample_threat)]
      (threat_key ("ip", "10.0.0.5")) = some sample_threat := by
    decide
  have h := claim_C8_threat_correlation.2.1 [("ip:10.0.0.5", sample_threat)]
    sample_event ("ip", "10.0.0.5") sample_threat hmem hget
  exact ⟨hmem, hget, h.2.2.1, by decide, h.2.2.2⟩

theorem deque_append_length {α : Type} (maxlen : Nat) (buf : List α) (x : α)
    (h : buf.length ≤ maxlen) :
    (deque_append maxlen buf x).length = min (buf.length + 1) maxlen := by
  simp only [deque_append, List.length_drop, List.length_append,
    List.length_cons, List.length_nil]
  omega

theorem deque_foldl_spec {α : Type} (maxlen : Nat) (xs : List α) (buf : List α)
    (h : buf.length ≤ maxlen) :
    List.foldl (deque_append maxlen) buf xs =
      (buf ++ xs).drop (buf.length + xs.length - maxlen) := by
  induction xs generalizing buf with
  | nil =>
    simp only [List.foldl_nil, List.append_nil, List.length_nil]
    have : buf.length + 0 - maxlen = 0 := by omega
    rw [this, List.drop_zero]
  | cons x xs ih =>
    have hlen : (deque_append maxlen buf x).length ≤ maxlen := by
      rw [deque_append_length maxlen buf x h]
      omega
    rw [List.foldl_cons, ih (deque_append maxlen buf x) hlen]
    rw [deque_append_length maxlen buf x h]
    simp only [deque_append]
    rw [← drop_append_of_le (buf ++ [x]) xs (buf.length + 1 - maxlen)
      (by simp only [List.length_append, List.length_cons, List.length_nil]
          omega)]
    rw [List.drop_drop]
    have harr : buf.length + 1 - maxlen +
        (min (buf.length + 1) maxlen + xs.length - maxlen) =
        buf.length + (x :: xs).length - maxlen := by
      simp only [List.length_cons]
      omega
    rw [harr]
    congr 1
    simp

/-- Claim C7: the event buffer has capacity 10000 and the metrics buffer
capacity 1000; for every sequence of more than `C` appends into an
initially empty buffer of capacity `C`, the buffer afterwards holds
exactly the `C` most recently appended entries in insertion order (the
suffix `xs.drop (xs.length - C)`), the oldest entries having been
evicted first; `deque_append` is total and returns no signal. -/
theorem claim_C7_bounded_fifo_buffers :
    events_buffer_maxlen = 10000 ∧ metrics_buffer_maxlen = 1000 ∧
    (∀ {α : Type} (maxlen : Nat) (xs : List α), maxlen < xs.length →
        List.foldl (deque_append maxlen) [] xs =
          xs.drop (xs.length - maxlen)) := by
  refine ⟨rfl, rfl, ?_⟩
  intro α maxlen xs _
  rw [deque_foldl_spec maxlen xs [] (by simp)]
  simp

/-- Witness for C7: three appends into a capacity-2 buffer keep exactly
the last two entries, in order. -/
theorem claim_C7_witness :
    2 < ([10, 20, 30] : List Nat).length ∧
    List.foldl (deque_append 2) [] [10, 20, 30] = [20, 30] := by
  refine ⟨by decide, ?_⟩
  exact (claim_C7_bounded_fifo_buffers.2.2 2 [10, 20, 30] (by decide)).trans
    (by decide)

/-- Claim C9 counterexample: the claim says a line containing " 404 "
yields a low-severity event, but a line containing both " 403 " and
" 404 " yields medium severity (the 403 test takes precedence in
`severity = 'medium' if ' 403 ' in line else 'low'`). -/
theorem claim_C9_counterexample :
    str_contains "GET /a 403 404 HTTP" " 404 " = true ∧
    (web_parse_line "apache_log" "t" "h" "GET /a 403 404 HTTP").map
      (fun e => e.severity) = some "medium" ∧
    (web_parse_line "apache_log" "t" "h" "GET /a 403 404 HTTP").map
      (fun e => e.severity) ≠ some "low" := by
  decide

/-- Claim C9 (amended): for every raw line fed to the apache or nginx
parser, a line containing " 403 " yields one web_access event of
severity medium; a line containing " 404 " or " 500 " but not " 403 "
yields one web_access event of severity low (the 403 test takes
precedence when several codes appear); any other line, including the
empty line, yields no event; and both parsers process a batch line by
line, so no line ever aborts the batch. -/
theorem claim_C9_web_access_classification :
    (∀ (src now_iso host line : String), line ≠ "" →
        str_contains line " 403 " = true →
        (web_parse_line src now_iso host line).map
          (fun e => (e.event_type, e.severity)) =
          some ("web_access", "medium")) ∧
    (∀ (src now_iso host line : String), line ≠ "" →
        str_contains line " 403 " = false →
        (str_contains line " 404 " = true ∨
          str_contains line " 500 " = true) →
        (web_parse_line src now_iso host line).map
          (fun e => (e.event_type, e.severity)) =
          some ("web_access", "low")) ∧
    (∀ (src now_iso host line : String),
        line = "" ∨ (str_contains line " 403 " = false ∧
          str_contains line " 404 " = false ∧
          str_contains line " 500 " = false) →
        web_parse_line src now_iso host line = none) ∧
    (∀ (now_iso host content : String),
        apache_parse_content now_iso host content =
          (py_lines content).filterMap
            (web_parse_line "apache_log" now_iso host) ∧
        nginx_parse_content now_iso host content =
          (py_lines content).filterMap
            (web_parse_line "nginx_log" now_iso host)) := by
  refine ⟨?_, ?_, ?_, fun _ _ _ => ⟨rfl, rfl⟩⟩
  · intro src now_iso host line hne h403
    simp [web_parse_line, hne, h403]
  · intro src now_iso host line hne h403 hor
    rcases hor with h | h <;> simp [web_parse_line, hne, h403, h]
  · intro src now_iso host line hcase
    rcases hcase with rfl | ⟨h403, h404, h500⟩
    · rfl
    · by_cases hne : line = ""
      · simp [web_parse_line, hne]
      · simp [web_parse_line, hne, h403, h404, h500]

/-- Witness for C9: a 403 line classified medium and a 404-only line
classified low, plus a non-matching line dropped. -/
theorem claim_C9_witness :
    (("x 403 y" : String) ≠ "" ∧
      str_contains "x 403 y" " 403 " = true ∧
      (web_parse_line "nginx_log" "t" "h" "x 403 y").map
        (fun e => (e.event_type, e.severity)) =
        some ("web_access", "medium")) ∧
    (("x 404 y" : String) ≠ "" ∧
      str_contains "x 404 y" " 403 " = false ∧
      str_contains "x 404 y" " 404 " = true ∧
      (web_parse_line "apache_log" "t" "h" "x 404 y").map
        (fun e => (e.event_type, e.severity)) =
        some ("web_access", "low")) ∧
    web_parse_line "apache_log" "t" "h" "plain line" = none := by
  refine ⟨⟨by decide, by decide, ?_⟩, ⟨by decide, by decide, by decide, ?_⟩, ?_⟩
  · exact claim_C9_web_access_classification.1 "nginx_log" "t" "h" "x 403 y"
      (by decide) (by decide)
  · exact claim_C9_web_access_classification.2.1 "apache_log" "t" "h" "x 404 y"
      (by decide) (by decide) (Or.inl (by decide))
  · exact claim_C9_web_access_classification.2.2.1 "apache_log" "t" "h"
      "plain line" (Or.inr ⟨by decide, by decide, by decide⟩)

theorem string_append_cancel_left (a b c : String) (h : a ++ b = a ++ c) :
    b = c := by
  cases a with | mk la =>
  cases b with | mk lb =>
  cases c with | mk lc =>
  have hd : la ++ lb = la ++ lc := congrArg String.data h
  exact congrArg String.mk (List.append_cancel_left hd)

/-- Claim C5 counterexample: the claim says every alert shape hashes
content plus a second-granularity generation timestamp, so identical
content generated one second apart yields different ids; but a security
alert's id data is only `sec_<event fields>` — the same event generated
at two different times yields literally the same id. -/
theorem claim_C5_counterexample :
    (generate_alert "2024-01-01T00:00:00" sample_event).alert_id_data =
      (generate_alert "2024-01-01T00:00:01" sample_event).alert_id_data ∧
    ("2024-01-01T00:00:00" : String) ≠ "2024-01-01T00:00:01" :=
  ⟨rfl, by decide⟩

/-- Claim C5 (amended): resource and anomaly alert ids hash
type-specific content plus the epoch second at generation: identical
content within the same second gives identical ids, and identical
content one second apart gives ids with distinct hash inputs (distinct
ids barring an MD5 collision).  Security and threat alert ids hash only
the triggering event's timestamp, event_type and source, independent of
the generation time, so identical content yields identical ids even
across different seconds. -/
theorem claim_C5_alert_id_determinism :
    (∀ (iso₁ iso₂ : String) (sec : Nat) (rt vr : String)
        (m₁ m₂ : Option String),
        (generate_resource_alert iso₁ sec rt vr m₁).alert_id_data =
          (generate_resource_alert iso₂ sec rt vr m₂).alert_id_data) ∧
    (∀ (sec₁ sec₂ : Nat) (rt vr : String) (m : Option String),
        Nat.repr sec₁ ≠ Nat.repr sec₂ →
        (generate_resource_alert "" sec₁ rt vr m).alert_id_data ≠
          (generate_resource_alert "" sec₂ rt vr m).alert_id_data) ∧
    (∀ (iso₁ iso₂ : String) (sec : Nat) (metric : String) (v₁ v₂ : ℚ)
        (b₁ b₂ : Baseline) (s₁ s₂ : String),
        (generate_anomaly_alert iso₁ sec metric v₁ b₁ s₁).alert_id_data =
          (generate_anomaly_alert iso₂ sec metric v₂ b₂ s₂).alert_id_data) ∧
    (∀ (sec₁ sec₂ : Nat) (metric : String) (v : ℚ) (b : Baseline)
        (s : String), Nat.repr sec₁ ≠ Nat.repr sec₂ →
        (generate_anomaly_alert "" sec₁ metric v b s).alert_id_data ≠
          (generate_anomaly_alert "" sec₂ metric v b s).alert_id_data) ∧
    (∀ (iso₁ iso₂ : String) (ev : SecurityEvent),
        (generate_alert iso₁ ev).alert_id_data =
          (generate_alert iso₂ ev).alert_id_data ∧
        (generate_alert iso₁ ev).alert_id_data =
          generate_alert_id_data ev "sec") ∧
    (∀ (iso₁ iso₂ : String) (ev : SecurityEvent)
        (thr₁ thr₂ : ThreatIndicator),
        (generate_threat_alert iso₁ ev thr₁).alert_id_data =
          (generate_threat_alert iso₂ ev thr₂).alert_id_data ∧
        (generate_threat_alert iso₁ ev thr₁).alert_id_data =
          generate_alert_id_data ev "threat") := by
  refine ⟨fun _ _ _ _ _ _ _ => rfl, ?_, fun _ _ _ _ _ _ _ _ _ _ => rfl, ?_,
    fun _ _ _ => ⟨rfl, rfl⟩, fun _ _ _ _ _ => ⟨rfl, rfl⟩⟩
  · intro sec₁ sec₂ rt vr m hne h
    exact hne (string_append_cancel_left (rt ++ "_" ++ vr ++ "_") _ _ h)
  · intro sec₁ sec₂ metric v b s hne h
    exact hne (string_append_cancel_left ("anomaly_" ++ metric ++ "_") _ _ h)

/-- Witness for the amended C5: epoch seconds 1000 and 1001 render
differently, so resource and anomaly ids generated one second apart
differ. -/
theorem claim_C5_witness :
    Nat.repr 1000 ≠ Nat.repr 1001 ∧
    (generate_resource_alert "" 1000 "cpu" "95.0" none).alert_id_data ≠
      (generate_resource_alert "" 1001 "cpu" "95.0" none).alert_id_data ∧
    (generate_anomaly_alert "" 1000 "cpu_usage" 0 ⟨0, 0, 0, 0⟩
        "medium").alert_id_data ≠
      (generate_anomaly_alert "" 1001 "cpu_usage" 0 ⟨0, 0, 0, 0⟩
        "medium").alert_id_data :=
  ⟨by decide,
   claim_C5_alert_id_determinism.2.1 1000 1001 "cpu" "95.0" none (by decide),
   claim_C5_alert_id_determinism.2.2.2.1 1000 1001 "cpu_usage" 0 ⟨0, 0, 0, 0⟩
     "medium" (by decide)⟩

/-- Claim C10: an anomaly alert's id is derived only from the metric
name and the epoch second of generation (the hashed data is
`anomaly_<metric_name>_<epoch-second>`, of which the id is the
16-hex-digit MD5 truncation): two anomaly alerts for the same metric in
the same second get identical ids even when their measured values,
baselines and severities all differ. -/
theorem claim_C10_anomaly_id_ignores_payload :
    ∀ (metric_name : String) (now_sec : Nat) (iso₁ iso₂ : String)
      (v₁ v₂ : ℚ) (b₁ b₂ : Baseline) (s₁ s₂ : String),
      (generate_anomaly_alert iso₁ now_sec metric_name v₁ b₁ s₁).alert_id_data
        = (generate_anomaly_alert iso₂ now_sec metric_name v₂ b₂
            s₂).alert_id_data ∧
      (generate_anomaly_alert iso₁ now_sec metric_name v₁ b₁ s₁).alert_id_data
        = "anomaly_" ++ metric_name ++ "_" ++ Nat.repr now_sec :=
  fun _ _ _ _ _ _ _ _ _ _ => ⟨rfl, rfl⟩

/-- Claim C1: on every successful tailer call, the file is statted; a
statted inode differing from the stored (nonzero) one resets the offset
to 0 and the whole current content is delivered; with an unchanged
identity, exactly the bytes from the stored offset to end-of-file are
delivered and the offset advances to the new end; hence over any
sequence of successful calls against one identity on an append-only
file, the concatenation of the delivered chunks is exactly the final
content from the starting offset — no byte re-delivered, none skipped. -/
theorem claim_C1_tailer_exact_delivery :
    (∀ (st : TailState) (i j : Nat) (c : List Nat),
        st.last_inode = some i → i ≠ 0 → j ≠ i →
        tail_success st j c = (c, ⟨c.length, some j⟩)) ∧
    (∀ (st : TailState) (i : Nat) (c : List Nat),
        st.last_inode = some i → st.last_position ≤ c.length →
        tail_success st i c = (c.drop st.last_position, ⟨c.length, some i⟩)) ∧
    (∀ (i : Nat) (c : List Nat) (cs : List (List Nat)) (st : TailState),
        st.last_inode = some i → st.last_position ≤ c.length →
        grows_from c cs →
        tail_run st i (c :: cs) =
          ((last_snap c cs).drop st.last_position,
            ⟨(last_snap c cs).length, some i⟩)) := by
  refine ⟨?_, tail_success_same, tail_run_chain⟩
  intro st i j c hst hi hne
  have hrot : rotated st j = true := by
    simp [rotated, hst, hi, hne]
  simp [tail_success, parse_new_events, hrot]

/-- Witness for C1: a concrete rotation (stored inode 1, statted inode 7
delivers the whole new file), and a concrete append-only two-call run
on inode 1 delivering the final content exactly once. -/
theorem claim_C1_witness :
    ((⟨2, some 1⟩ : TailState).last_inode = some 1 ∧ (1 : Nat) ≠ 0 ∧
      (7 : Nat) ≠ 1 ∧
      tail_success ⟨2, some 1⟩ 7 [9, 9, 9] = ([9, 9, 9], ⟨3, some 7⟩)) ∧
    (tail_run ⟨0, some 1⟩ 1 [[1, 2], [1, 2, 3]] = ([1, 2, 3], ⟨3, some 1⟩)) := by
  constructor
  · refine ⟨rfl, by decide, by decide, ?_⟩
    exact (claim_C1_tailer_exact_delivery.1 ⟨2, some 1⟩ 1 7 [9, 9, 9] rfl
      (by decide) (by decide)).trans (by decide)
  · exact (claim_C1_tailer_exact_delivery.2.2 1 [1, 2] [[1, 2, 3]] ⟨0, some 1⟩
      rfl (by decide) ⟨⟨[3], rfl⟩, trivial⟩).trans (by decide)

/-- Claim C4 counterexample: the claim says a failed read leaves the
cursor exactly as before the call, but when `os.stat` succeeds (inode 2,
rotation detected) and the subsequent `open`/read raises, the cursor has
already been mutated: the stored identity becomes 2 and the offset is
reset from 100 to 0. -/
theorem claim_C4_counterexample :
    parse_new_events ⟨100, some 1⟩ (some 2) none = ([], ⟨0, some 2⟩) ∧
    (⟨0, some 2⟩ : TailState) ≠ (⟨100, some 1⟩ : TailState) := by
  decide

/-- Claim C4 (amended): when the stat fails (e.g. the path does not
exist) the call returns no events and leaves the cursor exactly
unchanged; when the stat succeeds but the read fails, the call returns
no events, but the stored identity has already been updated to the
statted inode, and the offset has been reset to 0 exactly when a
rotation was detected (otherwise it is unchanged).  The error is
reported, not propagated. -/
theorem claim_C4_read_failure_cursor :
    (∀ (st : TailState) (r : Option (List Nat)),
        parse_new_events st none r = ([], st)) ∧
    (∀ (st : TailState) (ino : Nat),
        (parse_new_events st (some ino) none).1 = [] ∧
        (parse_new_events st (some ino) none).2.last_inode = some ino ∧
        (rotated st ino = true →
          (parse_new_events st (some ino) none).2.last_position = 0) ∧
        (rotated st ino = false →
          (parse_new_events st (some ino) none).2.last_position =
            st.last_position)) := by
  constructor
  · intro st r; rfl
  · intro st ino
    cases hrot : rotated st ino <;>
      simp [parse_new_events, hrot]

/-- Witness for the amended C4: a concrete rotated-then-failed read
resets the offset to 0, and a concrete same-identity failed read leaves
the offset untouched. -/
theorem claim_C4_witness :
    (rotated ⟨100, some 1⟩ 2 = true ∧
      (parse_new_events ⟨100, some 1⟩ (some 2) none).2.last_position = 0) ∧
    (rotated ⟨100, some 1⟩ 1 = false ∧
      (parse_new_events ⟨100, some 1⟩ (some 1) none).2.last_position = 100) :=
  ⟨⟨by decide, (claim_C4_read_failure_cursor.2 ⟨100, some 1⟩ 2).2.2.1 (by decide)⟩,
   ⟨by decide, (claim_C4_read_failure_cursor.2 ⟨100, some 1⟩ 1).2.2.2 (by decide)⟩⟩

end Collector
